import Mathlib

/-!
# Verification of the fagvalg presentation controller

Shallow embedding of `src/js/presentation.js` (a browser slide-presentation
controller).  Pure state is modelled explicitly; render-only effects (CSS
transitions, progress-bar width, nav-button disabling, fullscreen chrome,
timers that only remove transient classes) carry no state and are omitted.

The page markup (`index.html`) is not part of the sources, so the data the
controller reads from the DOM is abstracted:
* which slides carry `data-click-reveal="true"` and the `data-delay` ordinals
  of each slide's animatable elements become an `Env` parameter;
* the `data-requires` attributes of the two dependency widgets are modelled
  from the spec (each pair's second unit requires its first unit);
* live element geometry (`getBoundingClientRect`) is abstracted as values of
  a type parameter `G` supplied at each click.
-/

namespace Fagvalg

/-- The four selectable units (`data-fag` values) of the slide-10 widget
(`interactiveState` in the source). -/
inductive Fag10 : Type
| fysikk1 | fysikk2 | r1 | r2
deriving DecidableEq, Fintype

/-- The four selectable units (`data-fag` values) of the slide-11 widget
(`interactiveState11` in the source). -/
inductive Fag11 : Type
| okonomi1 | okonomi2 | samfunn1 | samfunn2
deriving DecidableEq, Fintype

/-- State of one dependency widget: the four boolean flags
(the `interactiveState` object), the `selected` CSS class of each cell, and
the two per-pair connecting arrows and result boxes.  An arrow is `some g`
when it has the `visible` class, where `g` is the geometry fixed when it was
last shown; `none` when hidden.  (The transient `just-selected` class is
removed by a fire-and-forget timer and carries no state.) -/
structure WidgetState (F : Type) (G : Type) where
  flags : F → Bool
  sel : F → Bool
  arrow1 : Option G
  result1 : Bool
  arrow2 : Option G
  result2 : Bool

/-- The all-false initial widget state: no flag set, no cell marked
`selected`, arrows and results hidden. -/
def widgetInit {F G : Type} : WidgetState F G :=
  { flags := fun _ => false
    sel := fun _ => false
    arrow1 := none
    result1 := false
    arrow2 := none
    result2 := false }

/-- Guard of `handleFagClick`: the click is rejected (shake animation, early
return) when the cell declares `data-requires` and that flag is false. -/
def clickRejected {F : Type} (rq : F → Option F) (flags : F → Bool) (fagId : F) : Bool :=
  match rq fagId with
  | some p => !flags p
  | none => false

/-- Flag update of a non-rejected click: deselecting `fagId` also forces
false every unit whose `data-requires` is `fagId` (the cascade loop over
`Object.keys`); selecting sets only `fagId`. -/
def toggleFlags {F : Type} [DecidableEq F] (rq : F → Option F) (flags : F → Bool)
    (fagId : F) : F → Bool :=
  if flags fagId then
    fun k => if k = fagId then false else if rq k = some fagId then false else flags k
  else
    fun k => if k = fagId then true else flags k

/-- `selected`-class update of a non-rejected click, mirroring the
`classList` operations next to each flag write in the source. -/
def toggleSel {F : Type} [DecidableEq F] (rq : F → Option F) (flags sel : F → Bool)
    (fagId : F) : F → Bool :=
  if flags fagId then
    fun k => if k = fagId then false else if rq k = some fagId then false else sel k
  else
    fun k => if k = fagId then true else sel k

/-- Combined flag update of one `handleFagClick` invocation (identity when
the click is rejected). -/
def flagsStep {F : Type} [DecidableEq F] (rq : F → Option F) (flags : F → Bool)
    (fagId : F) : F → Bool :=
  if clickRejected rq flags fagId then flags else toggleFlags rq flags fagId

/-- Combined `selected`-class update of one `handleFagClick` invocation. -/
def selStep {F : Type} [DecidableEq F] (rq : F → Option F) (flags sel : F → Bool)
    (fagId : F) : F → Bool :=
  if clickRejected rq flags fagId then sel else toggleSel rq flags sel fagId

/-- `updateFordypningVisuals` / `updateFordypningVisualsSlide11`: for each
pair, when both flags are true the arrow keeps its stored geometry if it is
already visible and otherwise takes the freshly computed geometry
(`updateArrowPosition`, abstracted as the inputs `g1`, `g2`); otherwise the
arrow and the result box are hidden. -/
def updateVisuals {F G : Type} (p1a p1b p2a p2b : F) (g1 g2 : G)
    (st : WidgetState F G) : WidgetState F G :=
  { st with
    arrow1 := if st.flags p1a && st.flags p1b then some (st.arrow1.getD g1) else none
    result1 := st.flags p1a && st.flags p1b
    arrow2 := if st.flags p2a && st.flags p2b then some (st.arrow2.getD g2) else none
    result2 := st.flags p2a && st.flags p2b }

/-- Generic body shared verbatim by `handleFagClick` (slide 10) and
`handleFagClickSlide11`: reject when the prerequisite is unmet, else toggle
the flag and `selected` class (with deselection cascade) and update the
pair visuals. -/
def fagClick {F G : Type} [DecidableEq F] (rq : F → Option F) (p1a p1b p2a p2b : F)
    (st : WidgetState F G) (fagId : F) (g1 g2 : G) : WidgetState F G :=
  if clickRejected rq st.flags fagId then st
  else
    updateVisuals p1a p1b p2a p2b g1 g2
      { st with
        flags := toggleFlags rq st.flags fagId
        sel := toggleSel rq st.flags st.sel fagId }

/-- Modelled from the spec: the `data-requires` attributes of the slide-10
markup are not under `src/`.  Per the spec's pair structure, the second unit
of each pair requires the first: `fysikk2` requires `fysikk1` and `r2`
requires `r1`; `data-fag` values are assumed unique across the page. -/
def requires10 : Fag10 → Option Fag10
| Fag10.fysikk2 => some Fag10.fysikk1
| Fag10.r2 => some Fag10.r1
| _ => none

/-- Modelled from the spec: the `data-requires` attributes of the slide-11
markup are not under `src/`.  `okonomi2` requires `okonomi1` and `samfunn2`
requires `samfunn1`. -/
def requires11 : Fag11 → Option Fag11
| Fag11.okonomi2 => some Fag11.okonomi1
| Fag11.samfunn2 => some Fag11.samfunn1
| _ => none

/-- `handleFagClick` (slide 10 click handler). -/
def handleFagClick {G : Type} (st : WidgetState Fag10 G) (fagId : Fag10)
    (g1 g2 : G) : WidgetState Fag10 G :=
  fagClick requires10 Fag10.fysikk1 Fag10.fysikk2 Fag10.r1 Fag10.r2 st fagId g1 g2

/-- `handleFagClickSlide11` (slide 11 click handler). -/
def handleFagClickSlide11 {G : Type} (st : WidgetState Fag11 G) (fagId : Fag11)
    (g1 g2 : G) : WidgetState Fag11 G :=
  fagClick requires11 Fag11.okonomi1 Fag11.okonomi2 Fag11.samfunn1 Fag11.samfunn2
    st fagId g1 g2

/-- A sequence of clicks on the slide-10 widget, each with the live pair
geometries at click time. -/
def runClicks10 {G : Type} (steps : List (Fag10 × G × G)) (st : WidgetState Fag10 G) :
    WidgetState Fag10 G :=
  steps.foldl (fun s step => handleFagClick s step.1 step.2.1 step.2.2) st

/-- A sequence of clicks on the slide-11 widget. -/
def runClicks11 {G : Type} (steps : List (Fag11 × G × G)) (st : WidgetState Fag11 G) :
    WidgetState Fag11 G :=
  steps.foldl (fun s step => handleFagClickSlide11 s step.1 step.2.1 step.2.2) st

/-- Flag trace of a click sequence (geometries do not influence flags). -/
def runFlags10 (clicks : List Fag10) (flags : Fag10 → Bool) : Fag10 → Bool :=
  clicks.foldl (flagsStep requires10) flags

/-- Flag trace of a slide-11 click sequence. -/
def runFlags11 (clicks : List Fag11) (flags : Fag11 → Bool) : Fag11 → Bool :=
  clicks.foldl (flagsStep requires11) flags

/-!  ## Presentation-level state  -/

/-- The page environment read from the markup (not under `src/`): which
slides have `data-click-reveal="true"` and the `data-delay` ordinals of each
slide's `[data-delay]` elements, in document order. -/
structure Env where
  clickReveal : Int → Bool
  elements : Int → List Int

/-- `totalSlides` (line 10 of the source). -/
def totalSlides : Int := 14

/-- Pure state of the presentation controller: `currentSlide`,
`clickRevealState` (per-slide counter, absent keys as `none`), the
`visible` class of each slide's `[data-delay]` element (by position), the
two widget states, and the transient UI open flags. -/
structure PresState (G : Type) where
  currentSlide : Int
  revealCount : Int → Option Int
  visible : Int → Nat → Bool
  w10 : WidgetState Fag10 G
  w11 : WidgetState Fag11 G
  bubbleOpen : Bool
  imageModalOpen : Bool
  qrModalOpen : Bool

/-- `clickRevealState[slide] || 0`. -/
def getCount {G : Type} (st : PresState G) (slide : Int) : Int :=
  (st.revealCount slide).getD 0

/-- Index of the last `[data-delay]` element of `elements` whose ordinal is
`d` (the `forEach` in the source overwrites its candidate on every match). -/
def lastMatch (elements : List Int) (d : Int) : Option Nat :=
  (List.range elements.length).foldl
    (fun acc i => if elements[i]? = some d then some i else acc) none

/-- `animateSlide` restricted to state: on a click-reveal slide only
initialize the counter lazily (to 0 when undefined); otherwise auto-reveal
every `[data-delay]` element of the slide (the stagger delay is render
timing only). -/
def animateSlide {G : Type} (env : Env) (st : PresState G) (slideNum : Int) :
    PresState G :=
  if env.clickReveal slideNum then
    if st.revealCount slideNum = none then
      { st with revealCount := fun s => if s = slideNum then some 0 else st.revealCount s }
    else st
  else
    { st with visible := fun s j => if s = slideNum then true else st.visible s j }

/-- The original `goToSlide` (lines 61-97): silently ignore out-of-range
targets, else move and animate the entered slide. -/
def originalGoToSlide {G : Type} (env : Env) (st : PresState G) (slideNum : Int) :
    PresState G :=
  if slideNum < 1 ∨ slideNum > totalSlides then st
  else animateSlide env { st with currentSlide := slideNum } slideNum

/-- `resetInteractiveSlide10`: clear the four flags, all `selected` marks,
and hide the arrows and result boxes. -/
def resetInteractiveSlide10 {G : Type} (st : PresState G) : PresState G :=
  { st with w10 := widgetInit }

/-- `resetInteractiveSlide11`. -/
def resetInteractiveSlide11 {G : Type} (st : PresState G) : PresState G :=
  { st with w11 := widgetInit }

/-- First reset step of the `goToSlide` wrapper: leaving slide 10. -/
def leaveReset10 {G : Type} (st : PresState G) (slideNum : Int) : PresState G :=
  if st.currentSlide = 10 ∧ slideNum ≠ 10 then resetInteractiveSlide10 st else st

/-- Second reset step of the `goToSlide` wrapper: leaving slide 11. -/
def leaveReset11 {G : Type} (st : PresState G) (slideNum : Int) : PresState G :=
  if st.currentSlide = 11 ∧ slideNum ≠ 11 then resetInteractiveSlide11 st else st

/-- The reassigned `goToSlide` wrapper (lines 852-866): reset the widget of
a slide being left, then call the original `goToSlide`.  Note the resets run
before the wrapped range check. -/
def goToSlide {G : Type} (env : Env) (st : PresState G) (slideNum : Int) : PresState G :=
  originalGoToSlide env (leaveReset11 (leaveReset10 st slideNum) slideNum) slideNum

/-- `nextSlide` (calls the reassigned `goToSlide`). -/
def nextSlide {G : Type} (env : Env) (st : PresState G) : PresState G :=
  goToSlide env st (st.currentSlide + 1)

/-- `prevSlide`. -/
def prevSlide {G : Type} (env : Env) (st : PresState G) : PresState G :=
  goToSlide env st (st.currentSlide - 1)

/-- `isCurrentSlideClickReveal`. -/
def isCurrentSlideClickReveal {G : Type} (env : Env) (st : PresState G) : Bool :=
  env.clickReveal st.currentSlide

/-- `allElementsRevealed`: the stored count has reached the number of
`[data-delay]` elements on the current slide. -/
def allElementsRevealed {G : Type} (env : Env) (st : PresState G) : Bool :=
  decide (((env.elements st.currentSlide).length : Int) ≤ getCount st st.currentSlide)

/-- `revealNextElement` (lines 315-341): fail once the counter has reached
the element count; otherwise add `visible` to the element whose
`data-delay` equals the counter (if any) and increment the counter. -/
def revealNextElement {G : Type} (env : Env) (st : PresState G) : Bool × PresState G :=
  if ((env.elements st.currentSlide).length : Int) ≤ getCount st st.currentSlide then
    (false, st)
  else
    (true,
      { st with
        visible := fun s j =>
          if lastMatch (env.elements st.currentSlide) (getCount st st.currentSlide) = some j
              ∧ s = st.currentSlide then true
          else st.visible s j
        revealCount := fun s =>
          if s = st.currentSlide then some (getCount st st.currentSlide + 1)
          else st.revealCount s })

/-- `hideLastRevealedElement` (lines 348-376): fail unless the active slide
is click-reveal with a positive counter; otherwise remove `visible` from the
element whose `data-delay` equals counter − 1 and decrement. -/
def hideLastRevealedElement {G : Type} (env : Env) (st : PresState G) :
    Bool × PresState G :=
  if env.clickReveal st.currentSlide = false then (false, st)
  else if getCount st st.currentSlide ≤ 0 then (false, st)
  else
    (true,
      { st with
        visible := fun s j =>
          if lastMatch (env.elements st.currentSlide) (getCount st st.currentSlide - 1)
                = some j
              ∧ s = st.currentSlide then false
          else st.visible s j
        revealCount := fun s =>
          if s = st.currentSlide then some (getCount st st.currentSlide - 1)
          else st.revealCount s })

/-- Shared forward branch of `handleKeydown` and `handleSwipe`: consume the
input as a reveal step on an incomplete click-reveal slide, else advance. -/
def forwardNav {G : Type} (env : Env) (st : PresState G) : PresState G :=
  if isCurrentSlideClickReveal env st && !allElementsRevealed env st then
    (revealNextElement env st).2
  else nextSlide env st

/-- The keys dispatched by `handleKeydown`. -/
inductive Key : Type
| arrowRight | arrowDown | space | pageDown
| arrowLeft | arrowUp | pageUp
| home | endKey | fKey | escape
deriving DecidableEq

/-- `handleKeydown` (first registered keydown listener).  The `f` key only
toggles fullscreen chrome (no modelled state).  On Escape it reverses a
reveal step when the current slide is click-reveal (the inner
`hideLastRevealedElement` call re-checks the counter). -/
def handleKeydown {G : Type} (env : Env) (st : PresState G) (k : Key) : PresState G :=
  match k with
  | Key.arrowRight | Key.arrowDown | Key.space | Key.pageDown => forwardNav env st
  | Key.arrowLeft | Key.arrowUp | Key.pageUp => prevSlide env st
  | Key.home => goToSlide env st 1
  | Key.endKey => goToSlide env st totalSlides
  | Key.fKey => st
  | Key.escape =>
      if isCurrentSlideClickReveal env st then (hideLastRevealedElement env st).2 else st

/-- `handleSwipe`: horizontal displacement beyond the 50px threshold; swipe
left (positive `diff`) takes the shared forward branch, swipe right goes
back. -/
def handleSwipe {G : Type} (env : Env) (st : PresState G)
    (touchStartX touchEndX : Int) : PresState G :=
  if 50 < |touchStartX - touchEndX| then
    if 0 < touchStartX - touchEndX then forwardNav env st else prevSlide env st
  else st

/-- `closeAllSpeechBubbles`. -/
def closeAllSpeechBubbles {G : Type} (st : PresState G) : PresState G :=
  { st with bubbleOpen := false }

/-- `closeImageModal`. -/
def closeImageModal {G : Type} (st : PresState G) : PresState G :=
  { st with imageModalOpen := false }

/-- `closeQrModal`. -/
def closeQrModal {G : Type} (st : PresState G) : PresState G :=
  { st with qrModalOpen := false }

/-- `openImageModal` (state part). -/
def openImageModal {G : Type} (st : PresState G) : PresState G :=
  { st with imageModalOpen := true }

/-- Everything one Escape keypress does: the four keydown listeners in
registration order — `handleKeydown` (lines 264-271), the speech-bubble
closer (1093-1097), the image-modal closer (1208-1212), the QR-modal closer
(1261-1265).  `preventDefault` does not stop later listeners and none calls
`stopPropagation`, so all four always run. -/
def escapeDispatch {G : Type} (env : Env) (st : PresState G) : PresState G :=
  let st1 := handleKeydown env st Key.escape
  let st2 := closeAllSpeechBubbles st1
  let st3 := if st2.imageModalOpen then closeImageModal st2 else st2
  if st3.qrModalOpen then closeQrModal st3 else st3

/-- State after page load before `init()` runs: slide 1 active, no stored
counters (`clickRevealState = {}`), `preloadAnimations` has removed every
`visible` class, widgets and modals closed. -/
def initState {G : Type} : PresState G :=
  { currentSlide := 1
    revealCount := fun _ => none
    visible := fun _ _ => false
    w10 := widgetInit
    w11 := widgetInit
    bubbleOpen := false
    imageModalOpen := false
    qrModalOpen := false }

/-- `init()`: the deferred initial `animateSlide` on the active first slide. -/
def presInit {G : Type} (env : Env) : PresState G :=
  animateSlide env initState 1

/-- A click on a slide-10 `fag-cell` at presentation level (the cells are on
slide 10, so these occur while it is the current slide). -/
def fagCellClick10 {G : Type} (st : PresState G) (c : Fag10) (g1 g2 : G) : PresState G :=
  { st with w10 := handleFagClick st.w10 c g1 g2 }

/-- A click on a slide-11 `fag-cell`. -/
def fagCellClick11 {G : Type} (st : PresState G) (c : Fag11) (g1 g2 : G) : PresState G :=
  { st with w11 := handleFagClickSlide11 st.w11 c g1 g2 }

/-- One reveal-sequencer operation. -/
inductive RevealOp : Type
| next
| hideLast

/-- A sequence of reveal-next / reveal-previous operations. -/
def applyRevealOps {G : Type} (env : Env) (ops : List RevealOp) (st : PresState G) :
    PresState G :=
  ops.foldl
    (fun s op =>
      match op with
      | RevealOp.next => (revealNextElement env s).2
      | RevealOp.hideLast => (hideLastRevealedElement env s).2) st

/-!  ## Widget-level lemmas  -/

/-- Flags of a click depend only on the prior flags. -/
lemma fagClick_flags {F G : Type} [DecidableEq F] (rq : F → Option F) (p1a p1b p2a p2b : F)
    (st : WidgetState F G) (x : F) (g1 g2 : G) :
    (fagClick rq p1a p1b p2a p2b st x g1 g2).flags = flagsStep rq st.flags x := by
  by_cases h : clickRejected rq st.flags x = true <;>
    simp [fagClick, flagsStep, updateVisuals, h]

/-- The `selected` classes of a click depend only on the prior flags and
classes. -/
lemma fagClick_sel {F G : Type} [DecidableEq F] (rq : F → Option F) (p1a p1b p2a p2b : F)
    (st : WidgetState F G) (x : F) (g1 g2 : G) :
    (fagClick rq p1a p1b p2a p2b st x g1 g2).sel = selStep rq st.flags st.sel x := by
  by_cases h : clickRejected rq st.flags x = true <;>
    simp [fagClick, selStep, updateVisuals, h]

/-- Instance of `fagClick_flags` for the slide-10 handler. -/
lemma handleFagClick_flags {G : Type} (st : WidgetState Fag10 G) (x : Fag10) (g1 g2 : G) :
    (handleFagClick st x g1 g2).flags = flagsStep requires10 st.flags x :=
  fagClick_flags requires10 Fag10.fysikk1 Fag10.fysikk2 Fag10.r1 Fag10.r2 st x g1 g2

/-- Instance of `fagClick_sel` for the slide-10 handler. -/
lemma handleFagClick_sel {G : Type} (st : WidgetState Fag10 G) (x : Fag10) (g1 g2 : G) :
    (handleFagClick st x g1 g2).sel = selStep requires10 st.flags st.sel x :=
  fagClick_sel requires10 Fag10.fysikk1 Fag10.fysikk2 Fag10.r1 Fag10.r2 st x g1 g2

/-- Instance of `fagClick_flags` for the slide-11 handler. -/
lemma handleFagClickSlide11_flags {G : Type} (st : WidgetState Fag11 G) (x : Fag11)
    (g1 g2 : G) :
    (handleFagClickSlide11 st x g1 g2).flags = flagsStep requires11 st.flags x :=
  fagClick_flags requires11 Fag11.okonomi1 Fag11.okonomi2 Fag11.samfunn1 Fag11.samfunn2
    st x g1 g2

/-- Instance of `fagClick_sel` for the slide-11 handler. -/
lemma handleFagClickSlide11_sel {G : Type} (st : WidgetState Fag11 G) (x : Fag11)
    (g1 g2 : G) :
    (handleFagClickSlide11 st x g1 g2).sel = selStep requires11 st.flags st.sel x :=
  fagClick_sel requires11 Fag11.okonomi1 Fag11.okonomi2 Fag11.samfunn1 Fag11.samfunn2
    st x g1 g2

/-- The flag trace of a slide-10 click sequence. -/
lemma runClicks10_flags {G : Type} (steps : List (Fag10 × G × G))
    (st : WidgetState Fag10 G) :
    (runClicks10 steps st).flags = runFlags10 (steps.map Prod.fst) st.flags := by
  induction steps generalizing st with
  | nil => rfl
  | cons s ss ih =>
      simp only [runClicks10, runFlags10, List.foldl_cons, List.map_cons] at *
      rw [ih, handleFagClick_flags]

/-- The flag trace of a slide-11 click sequence. -/
lemma runClicks11_flags {G : Type} (steps : List (Fag11 × G × G))
    (st : WidgetState Fag11 G) :
    (runClicks11 steps st).flags = runFlags11 (steps.map Prod.fst) st.flags := by
  induction steps generalizing st with
  | nil => rfl
  | cons s ss ih =>
      simp only [runClicks11, runFlags11, List.foldl_cons, List.map_cons] at *
      rw [ih, handleFagClickSlide11_flags]

/-- One slide-10 flag step preserves the prerequisite invariant. -/
lemma flagsStep10_inv : ∀ (f : Fag10 → Bool) (c : Fag10),
    (∀ u p, requires10 u = some p → f u = true → f p = true) →
    ∀ u p, requires10 u = some p →
      flagsStep requires10 f c u = true → flagsStep requires10 f c p = true := by
  decide

/-- One slide-11 flag step preserves the prerequisite invariant. -/
lemma flagsStep11_inv : ∀ (f : Fag11 → Bool) (c : Fag11),
    (∀ u p, requires11 u = some p → f u = true → f p = true) →
    ∀ u p, requires11 u = some p →
      flagsStep requires11 f c u = true → flagsStep requires11 f c p = true := by
  decide

/-- The prerequisite invariant is preserved by every slide-10 click
sequence. -/
lemma runFlags10_inv (clicks : List Fag10) (f : Fag10 → Bool)
    (hf : ∀ u p, requires10 u = some p → f u = true → f p = true) :
    ∀ u p, requires10 u = some p →
      runFlags10 clicks f u = true → runFlags10 clicks f p = true := by
  induction clicks generalizing f with
  | nil => exact hf
  | cons c cs ih =>
      simp only [runFlags10, List.foldl_cons] at *
      exact ih _ (flagsStep10_inv f c hf)

/-- The prerequisite invariant is preserved by every slide-11 click
sequence. -/
lemma runFlags11_inv (clicks : List Fag11) (f : Fag11 → Bool)
    (hf : ∀ u p, requires11 u = some p → f u = true → f p = true) :
    ∀ u p, requires11 u = some p →
      runFlags11 clicks f u = true → runFlags11 clicks f p = true := by
  induction clicks generalizing f with
  | nil => exact hf
  | cons c cs ih =>
      simp only [runFlags11, List.foldl_cons] at *
      exact ih _ (flagsStep11_inv f c hf)

/-- A rejected click is a strict no-op. -/
lemma fagClick_rejected {F G : Type} [DecidableEq F] (rq : F → Option F)
    (p1a p1b p2a p2b : F) (st : WidgetState F G) (x p : F) (g1 g2 : G)
    (hreq : rq x = some p) (hp : st.flags p = false) :
    fagClick rq p1a p1b p2a p2b st x g1 g2 = st := by
  have h : clickRejected rq st.flags x = true := by
    simp [clickRejected, hreq, hp]
  simp [fagClick, h]

/-- One slide-10 click forces a deselected unit's dependent flags false,
for any prior flag combination. -/
lemma cascade10_flags : ∀ (f : Fag10 → Bool) (x y : Fag10),
    f x = true → (∀ p, requires10 x = some p → f p = true) → requires10 y = some x →
    flagsStep requires10 f x y = false ∧ flagsStep requires10 f x x = false := by
  decide

/-- One slide-10 click un-marks a deselected unit's dependents, for any
prior flag and class combination. -/
lemma cascade10_sel : ∀ (f s : Fag10 → Bool) (x y : Fag10),
    f x = true → (∀ p, requires10 x = some p → f p = true) → requires10 y = some x →
    selStep requires10 f s x y = false := by
  decide

/-- One slide-11 click forces a deselected unit's dependent flags false,
for any prior flag combination. -/
lemma cascade11_flags : ∀ (f : Fag11 → Bool) (x y : Fag11),
    f x = true → (∀ p, requires11 x = some p → f p = true) → requires11 y = some x →
    flagsStep requires11 f x y = false ∧ flagsStep requires11 f x x = false := by
  decide

/-- One slide-11 click un-marks a deselected unit's dependents, for any
prior flag and class combination. -/
lemma cascade11_sel : ∀ (f s : Fag11 → Bool) (x y : Fag11),
    f x = true → (∀ p, requires11 x = some p → f p = true) → requires11 y = some x →
    selStep requires11 f s x y = false := by
  decide

/-- C1: In both dependency widgets, along every click sequence from the
all-false initial state, a unit that declares a prerequisite is never
selected while its prerequisite flag is false; and a click on such a unit
while the prerequisite flag is false is rejected with no state change. -/
theorem c1_prerequisite_invariant :
    (∀ (G : Type) (steps : List (Fag10 × G × G)) (u p : Fag10),
        requires10 u = some p →
        (runClicks10 steps widgetInit).flags u = true →
        (runClicks10 steps widgetInit).flags p = true)
  ∧ (∀ (G : Type) (steps : List (Fag11 × G × G)) (u p : Fag11),
        requires11 u = some p →
        (runClicks11 steps widgetInit).flags u = true →
        (runClicks11 steps widgetInit).flags p = true)
  ∧ (∀ (G : Type) (st : WidgetState Fag10 G) (u p : Fag10) (g1 g2 : G),
        requires10 u = some p → st.flags p = false →
        handleFagClick st u g1 g2 = st)
  ∧ (∀ (G : Type) (st : WidgetState Fag11 G) (u p : Fag11) (g1 g2 : G),
        requires11 u = some p → st.flags p = false →
        handleFagClickSlide11 st u g1 g2 = st) := by
  refine ⟨?_, ?_, ?_, ?_⟩
  · intro G steps u p hreq hu
    rw [runClicks10_flags] at hu ⊢
    refine runFlags10_inv _ _ ?_ u p hreq hu
    intro u' p' _ h
    exact absurd h (by simp [widgetInit])
  · intro G steps u p hreq hu
    rw [runClicks11_flags] at hu ⊢
    refine runFlags11_inv _ _ ?_ u p hreq hu
    intro u' p' _ h
    exact absurd h (by simp [widgetInit])
  · intro G st u p g1 g2 hreq hp
    exact fagClick_rejected requires10 Fag10.fysikk1 Fag10.fysikk2 Fag10.r1 Fag10.r2
      st u p g1 g2 hreq hp
  · intro G st u p g1 g2 hreq hp
    exact fagClick_rejected requires11 Fag11.okonomi1 Fag11.okonomi2 Fag11.samfunn1
      Fag11.samfunn2 st u p g1 g2 hreq hp

/-- Witness for C1 at concrete inputs: after clicking `fysikk1` then
`fysikk2`, the invariant instance holds, and a lone click on `okonomi2`
from the initial state is a no-op. -/
theorem c1_prerequisite_invariant_witness :
    requires10 Fag10.fysikk2 = some Fag10.fysikk1 ∧
    (runClicks10 [(Fag10.fysikk1, (), ()), (Fag10.fysikk2, (), ())]
        widgetInit).flags Fag10.fysikk2 = true ∧
    (runClicks10 [(Fag10.fysikk1, (), ()), (Fag10.fysikk2, (), ())]
        widgetInit).flags Fag10.fysikk1 = true ∧
    handleFagClickSlide11 (widgetInit : WidgetState Fag11 Unit) Fag11.okonomi2 () ()
      = widgetInit :=
  ⟨rfl, by decide,
   c1_prerequisite_invariant.1 Unit [(Fag10.fysikk1, (), ()), (Fag10.fysikk2, (), ())]
     Fag10.fysikk2 Fag10.fysikk1 rfl (by decide),
   c1_prerequisite_invariant.2.2.2 Unit widgetInit Fag11.okonomi2 Fag11.okonomi1 () ()
     rfl rfl⟩

/-- C2: In both widgets, deselecting a selected unit `x` (a click that is
not rejected) forces false and un-marks, in the same handler invocation,
every unit whose declared prerequisite is `x`, as well as `x` itself, for
any prior combination of the 4 flags. -/
theorem c2_deselect_cascade :
    (∀ (G : Type) (st : WidgetState Fag10 G) (x y : Fag10) (g1 g2 : G),
        st.flags x = true →
        (∀ p, requires10 x = some p → st.flags p = true) →
        requires10 y = some x →
        (handleFagClick st x g1 g2).flags y = false ∧
        (handleFagClick st x g1 g2).sel y = false ∧
        (handleFagClick st x g1 g2).flags x = false)
  ∧ (∀ (G : Type) (st : WidgetState Fag11 G) (x y : Fag11) (g1 g2 : G),
        st.flags x = true →
        (∀ p, requires11 x = some p → st.flags p = true) →
        requires11 y = some x →
        (handleFagClickSlide11 st x g1 g2).flags y = false ∧
        (handleFagClickSlide11 st x g1 g2).sel y = false ∧
        (handleFagClickSlide11 st x g1 g2).flags x = false) := by
  constructor
  · intro G st x y g1 g2 hx hall hr
    have h := cascade10_flags st.flags x y hx hall hr
    have hs := cascade10_sel st.flags st.sel x y hx hall hr
    exact ⟨by rw [handleFagClick_flags]; exact h.1,
           by rw [handleFagClick_sel]; exact hs,
           by rw [handleFagClick_flags]; exact h.2⟩
  · intro G st x y g1 g2 hx hall hr
    have h := cascade11_flags st.flags x y hx hall hr
    have hs := cascade11_sel st.flags st.sel x y hx hall hr
    exact ⟨by rw [handleFagClickSlide11_flags]; exact h.1,
           by rw [handleFagClickSlide11_sel]; exact hs,
           by rw [handleFagClickSlide11_flags]; exact h.2⟩

/-- Witness for C2: with `fysikk1` and `fysikk2` both selected, clicking
`fysikk1` deselects `fysikk2` (and un-marks it) in the same invocation. -/
theorem c2_deselect_cascade_witness :
    (runClicks10 [(Fag10.fysikk1, (), ()), (Fag10.fysikk2, (), ())]
        widgetInit).flags Fag10.fysikk1 = true ∧
    ((handleFagClick
        (runClicks10 [(Fag10.fysikk1, (), ()), (Fag10.fysikk2, (), ())] widgetInit)
        Fag10.fysikk1 () ()).flags Fag10.fysikk2 = false ∧
     (handleFagClick
        (runClicks10 [(Fag10.fysikk1, (), ()), (Fag10.fysikk2, (), ())] widgetInit)
        Fag10.fysikk1 () ()).sel Fag10.fysikk2 = false ∧
     (handleFagClick
        (runClicks10 [(Fag10.fysikk1, (), ()), (Fag10.fysikk2, (), ())] widgetInit)
        Fag10.fysikk1 () ()).flags Fag10.fysikk1 = false) :=
  ⟨by decide,
   c2_deselect_cascade.1 Unit
     (runClicks10 [(Fag10.fysikk1, (), ()), (Fag10.fysikk2, (), ())] widgetInit)
     Fag10.fysikk1 Fag10.fysikk2 () () (by decide) (by decide) rfl⟩

/-!  ## Widget visuals (arrows and result boxes)  -/

/-- The visuals invariant of one widget: each pair's arrow and result box
carry the `visible` class exactly when both of the pair's flags are true. -/
def pairVisInv {F G : Type} (p1a p1b p2a p2b : F) (st : WidgetState F G) : Prop :=
  st.arrow1.isSome = (st.flags p1a && st.flags p1b) ∧
  st.result1 = (st.flags p1a && st.flags p1b) ∧
  st.arrow2.isSome = (st.flags p2a && st.flags p2b) ∧
  st.result2 = (st.flags p2a && st.flags p2b)

lemma isSome_boolIte {α : Type} (b : Bool) (x : α) :
    (if b then some x else none).isSome = b := by
  cases b <;> simp

/-- One click (rejected or not) preserves the visuals invariant. -/
lemma fagClick_pairVisInv {F G : Type} [DecidableEq F] (rq : F → Option F)
    (p1a p1b p2a p2b : F) (st : WidgetState F G) (x : F) (g1 g2 : G)
    (h : pairVisInv p1a p1b p2a p2b st) :
    pairVisInv p1a p1b p2a p2b (fagClick rq p1a p1b p2a p2b st x g1 g2) := by
  by_cases hrej : clickRejected rq st.flags x = true
  · rw [fagClick, if_pos hrej]
    exact h
  · rw [fagClick, if_neg hrej]
    refine ⟨?_, rfl, ?_, rfl⟩ <;> exact isSome_boolIte _ _

/-- The visuals invariant holds after every slide-10 click sequence. -/
lemma runClicks10_pairVisInv {G : Type} (steps : List (Fag10 × G × G))
    (st : WidgetState Fag10 G)
    (h : pairVisInv Fag10.fysikk1 Fag10.fysikk2 Fag10.r1 Fag10.r2 st) :
    pairVisInv Fag10.fysikk1 Fag10.fysikk2 Fag10.r1 Fag10.r2 (runClicks10 steps st) := by
  induction steps generalizing st with
  | nil => exact h
  | cons s ss ih =>
      exact ih _ (fagClick_pairVisInv requires10 _ _ _ _ st s.1 s.2.1 s.2.2 h)

/-- The visuals invariant holds after every slide-11 click sequence. -/
lemma runClicks11_pairVisInv {G : Type} (steps : List (Fag11 × G × G))
    (st : WidgetState Fag11 G)
    (h : pairVisInv Fag11.okonomi1 Fag11.okonomi2 Fag11.samfunn1 Fag11.samfunn2 st) :
    pairVisInv Fag11.okonomi1 Fag11.okonomi2 Fag11.samfunn1 Fag11.samfunn2
      (runClicks11 steps st) := by
  induction steps generalizing st with
  | nil => exact h
  | cons s ss ih =>
      exact ih _ (fagClick_pairVisInv requires11 _ _ _ _ st s.1 s.2.1 s.2.2 h)

/-- A visible arrow that stays visible keeps its stored geometry. -/
lemma fagClick_arrow1_keep {F G : Type} [DecidableEq F] (rq : F → Option F)
    (p1a p1b p2a p2b : F) (st : WidgetState F G) (x : F) (g1 g2 g g' : G)
    (hg : st.arrow1 = some g)
    (hg' : (fagClick rq p1a p1b p2a p2b st x g1 g2).arrow1 = some g') : g' = g := by
  by_cases hrej : clickRejected rq st.flags x = true
  · rw [fagClick, if_pos hrej, hg] at hg'
    exact (Option.some_inj.mp hg').symm
  · rw [fagClick, if_neg hrej] at hg'
    simp only [updateVisuals] at hg'
    by_cases hb : (toggleFlags rq st.flags x p1a && toggleFlags rq st.flags x p1b) = true
    · rw [if_pos hb, hg] at hg'
      simpa using hg'.symm
    · rw [if_neg hb] at hg'
      exact absurd hg' (by simp)

/-- An arrow that becomes visible takes the geometry computed at that
transition (`updateArrowPosition`, the input `g1`). -/
lemma fagClick_arrow1_fresh {F G : Type} [DecidableEq F] (rq : F → Option F)
    (p1a p1b p2a p2b : F) (st : WidgetState F G) (x : F) (g1 g2 g' : G)
    (hg : st.arrow1 = none)
    (hg' : (fagClick rq p1a p1b p2a p2b st x g1 g2).arrow1 = some g') : g' = g1 := by
  by_cases hrej : clickRejected rq st.flags x = true
  · rw [fagClick, if_pos hrej, hg] at hg'
    exact absurd hg' (by simp)
  · rw [fagClick, if_neg hrej] at hg'
    simp only [updateVisuals] at hg'
    by_cases hb : (toggleFlags rq st.flags x p1a && toggleFlags rq st.flags x p1b) = true
    · rw [if_pos hb, hg] at hg'
      simpa using hg'.symm
    · rw [if_neg hb] at hg'
      exact absurd hg' (by simp)

/-- A visible second-pair arrow that stays visible keeps its geometry. -/
lemma fagClick_arrow2_keep {F G : Type} [DecidableEq F] (rq : F → Option F)
    (p1a p1b p2a p2b : F) (st : WidgetState F G) (x : F) (g1 g2 g g' : G)
    (hg : st.arrow2 = some g)
    (hg' : (fagClick rq p1a p1b p2a p2b st x g1 g2).arrow2 = some g') : g' = g := by
  by_cases hrej : clickRejected rq st.flags x = true
  · rw [fagClick, if_pos hrej, hg] at hg'
    exact (Option.some_inj.mp hg').symm
  · rw [fagClick, if_neg hrej] at hg'
    simp only [updateVisuals] at hg'
    by_cases hb : (toggleFlags rq st.flags x p2a && toggleFlags rq st.flags x p2b) = true
    · rw [if_pos hb, hg] at hg'
      simpa using hg'.symm
    · rw [if_neg hb] at hg'
      exact absurd hg' (by simp)

/-- A second-pair arrow that becomes visible takes the freshly computed
geometry `g2`. -/
lemma fagClick_arrow2_fresh {F G : Type} [DecidableEq F] (rq : F → Option F)
    (p1a p1b p2a p2b : F) (st : WidgetState F G) (x : F) (g1 g2 g' : G)
    (hg : st.arrow2 = none)
    (hg' : (fagClick rq p1a p1b p2a p2b st x g1 g2).arrow2 = some g') : g' = g2 := by
  by_cases hrej : clickRejected rq st.flags x = true
  · rw [fagClick, if_pos hrej, hg] at hg'
    exact absurd hg' (by simp)
  · rw [fagClick, if_neg hrej] at hg'
    simp only [updateVisuals] at hg'
    by_cases hb : (toggleFlags rq st.flags x p2a && toggleFlags rq st.flags x p2b) = true
    · rw [if_pos hb, hg] at hg'
      simpa using hg'.symm
    · rw [if_neg hb] at hg'
      exact absurd hg' (by simp)

/-- C6: After any click-handler invocation reachable from the initial
state, each pair's connecting arrow and derived result display are visible
iff both of the pair's flags are true; a visible arrow keeps its stored
geometry as long as it stays visible, and an arrow becoming visible takes
exactly the geometry computed at that transition. -/
theorem c6_indicator_iff_complete :
    (∀ (G : Type) (steps : List (Fag10 × G × G)),
        pairVisInv Fag10.fysikk1 Fag10.fysikk2 Fag10.r1 Fag10.r2
          (runClicks10 steps widgetInit))
  ∧ (∀ (G : Type) (steps : List (Fag11 × G × G)),
        pairVisInv Fag11.okonomi1 Fag11.okonomi2 Fag11.samfunn1 Fag11.samfunn2
          (runClicks11 steps widgetInit))
  ∧ (∀ (G : Type) (st : WidgetState Fag10 G) (x : Fag10) (g1 g2 g g' : G),
        (st.arrow1 = some g → (handleFagClick st x g1 g2).arrow1 = some g' → g' = g) ∧
        (st.arrow1 = none → (handleFagClick st x g1 g2).arrow1 = some g' → g' = g1) ∧
        (st.arrow2 = some g → (handleFagClick st x g1 g2).arrow2 = some g' → g' = g) ∧
        (st.arrow2 = none → (handleFagClick st x g1 g2).arrow2 = some g' → g' = g2))
  ∧ (∀ (G : Type) (st : WidgetState Fag11 G) (x : Fag11) (g1 g2 g g' : G),
        (st.arrow1 = some g →
          (handleFagClickSlide11 st x g1 g2).arrow1 = some g' → g' = g) ∧
        (st.arrow1 = none →
          (handleFagClickSlide11 st x g1 g2).arrow1 = some g' → g' = g1) ∧
        (st.arrow2 = some g →
          (handleFagClickSlide11 st x g1 g2).arrow2 = some g' → g' = g) ∧
        (st.arrow2 = none →
          (handleFagClickSlide11 st x g1 g2).arrow2 = some g' → g' = g2)) := by
  refine ⟨?_, ?_, ?_, ?_⟩
  · intro G steps
    exact runClicks10_pairVisInv steps widgetInit (by simp [pairVisInv, widgetInit])
  · intro G steps
    exact runClicks11_pairVisInv steps widgetInit (by simp [pairVisInv, widgetInit])
  · intro G st x g1 g2 g g'
    exact ⟨fagClick_arrow1_keep requires10 _ _ _ _ st x g1 g2 g g',
           fagClick_arrow1_fresh requires10 _ _ _ _ st x g1 g2 g',
           fagClick_arrow2_keep requires10 _ _ _ _ st x g1 g2 g g',
           fagClick_arrow2_fresh requires10 _ _ _ _ st x g1 g2 g'⟩
  · intro G st x g1 g2 g g'
    exact ⟨fagClick_arrow1_keep requires11 _ _ _ _ st x g1 g2 g g',
           fagClick_arrow1_fresh requires11 _ _ _ _ st x g1 g2 g',
           fagClick_arrow2_keep requires11 _ _ _ _ st x g1 g2 g g',
           fagClick_arrow2_fresh requires11 _ _ _ _ st x g1 g2 g'⟩

/-- Witness for C6: after selecting only `fysikk1` the arrow is hidden;
clicking `fysikk2` with live geometry 42 shows the arrow with exactly that
geometry. -/
theorem c6_indicator_iff_complete_witness :
    (runClicks10 [(Fag10.fysikk1, (1 : Int), 2)] widgetInit).arrow1 = none ∧
    (handleFagClick (runClicks10 [(Fag10.fysikk1, (1 : Int), 2)] widgetInit)
        Fag10.fysikk2 42 7).arrow1 = some 42 ∧
    (42 : Int) = 42 :=
  ⟨by decide, by decide,
   (c6_indicator_iff_complete.2.2.1 Int
      (runClicks10 [(Fag10.fysikk1, (1 : Int), 2)] widgetInit)
      Fag10.fysikk2 42 7 0 42).2.1 (by decide) (by decide)⟩

/-!  ## Reveal-sequencer lemmas  -/

/-- `revealNextElement` fails and changes nothing once the counter has
reached the element count. -/
lemma revealNextElement_full {G : Type} (env : Env) (st : PresState G)
    (h : ((env.elements st.currentSlide).length : Int) ≤ getCount st st.currentSlide) :
    revealNextElement env st = (false, st) := by
  rw [revealNextElement, if_pos h]

/-- A successful `revealNextElement`: reports success, keeps the slide and
increments the counter. -/
lemma revealNextElement_step {G : Type} (env : Env) (st : PresState G)
    (h : getCount st st.currentSlide < ((env.elements st.currentSlide).length : Int)) :
    (revealNextElement env st).1 = true ∧
    (revealNextElement env st).2.currentSlide = st.currentSlide ∧
    getCount (revealNextElement env st).2 st.currentSlide
      = getCount st st.currentSlide + 1 := by
  rw [revealNextElement, if_neg (not_le.mpr h)]
  exact ⟨rfl, rfl, by simp [getCount]⟩

/-- `hideLastRevealedElement` fails on a non-click-reveal slide. -/
lemma hideLastRevealedElement_notCR {G : Type} (env : Env) (st : PresState G)
    (h : env.clickReveal st.currentSlide = false) :
    hideLastRevealedElement env st = (false, st) := by
  rw [hideLastRevealedElement, if_pos h]

/-- `hideLastRevealedElement` fails and changes nothing when the counter is
at (or below) 0. -/
lemma hideLastRevealedElement_zero {G : Type} (env : Env) (st : PresState G)
    (h : getCount st st.currentSlide ≤ 0) :
    hideLastRevealedElement env st = (false, st) := by
  by_cases hcr : env.clickReveal st.currentSlide = false
  · rw [hideLastRevealedElement, if_pos hcr]
  · rw [hideLastRevealedElement, if_neg hcr, if_pos h]

/-- A successful `hideLastRevealedElement`: reports success, keeps the
slide and decrements the counter. -/
lemma hideLastRevealedElement_step {G : Type} (env : Env) (st : PresState G)
    (hcr : env.clickReveal st.currentSlide = true)
    (h : 0 < getCount st st.currentSlide) :
    (hideLastRevealedElement env st).1 = true ∧
    (hideLastRevealedElement env st).2.currentSlide = st.currentSlide ∧
    getCount (hideLastRevealedElement env st).2 st.currentSlide
      = getCount st st.currentSlide - 1 := by
  rw [hideLastRevealedElement, if_neg (by simp [hcr]), if_neg (not_le.mpr h)]
  exact ⟨rfl, rfl, by simp [getCount]⟩

lemma applyRevealOps_next {G : Type} (env : Env) (ops : List RevealOp)
    (st : PresState G) :
    applyRevealOps env (RevealOp.next :: ops) st
      = applyRevealOps env ops (revealNextElement env st).2 := rfl

lemma applyRevealOps_hide {G : Type} (env : Env) (ops : List RevealOp)
    (st : PresState G) :
    applyRevealOps env (RevealOp.hideLast :: ops) st
      = applyRevealOps env ops (hideLastRevealedElement env st).2 := rfl

/-- C3: Along every sequence of reveal-next / reveal-previous operations,
the per-slide reveal counter stays within [0, element count] (and the slide
does not change); `revealNextElement` is a failing no-op once the counter
has reached the element count, and `hideLastRevealedElement` is a failing
no-op at counter 0. -/
theorem c3_counter_bounds :
    (∀ (G : Type) (env : Env) (ops : List RevealOp) (st : PresState G),
        0 ≤ getCount st st.currentSlide →
        getCount st st.currentSlide ≤ ((env.elements st.currentSlide).length : Int) →
        (applyRevealOps env ops st).currentSlide = st.currentSlide ∧
        0 ≤ getCount (applyRevealOps env ops st) st.currentSlide ∧
        getCount (applyRevealOps env ops st) st.currentSlide
          ≤ ((env.elements st.currentSlide).length : Int))
  ∧ (∀ (G : Type) (env : Env) (st : PresState G),
        ((env.elements st.currentSlide).length : Int) ≤ getCount st st.currentSlide →
        revealNextElement env st = (false, st))
  ∧ (∀ (G : Type) (env : Env) (st : PresState G),
        getCount st st.currentSlide ≤ 0 →
        hideLastRevealedElement env st = (false, st)) := by
  refine ⟨?_, ?_, ?_⟩
  · intro G env ops
    induction ops with
    | nil => intro st h0 h1; exact ⟨rfl, h0, h1⟩
    | cons op ops ih =>
        intro st h0 h1
        cases op with
        | next =>
            rw [applyRevealOps_next]
            by_cases hfull : ((env.elements st.currentSlide).length : Int)
                ≤ getCount st st.currentSlide
            · rw [revealNextElement_full env st hfull]
              exact ih st h0 h1
            · have hlt := not_le.mp hfull
              obtain ⟨-, hcs, hcount⟩ := revealNextElement_step env st hlt
              have h0' : 0 ≤ getCount (revealNextElement env st).2
                  (revealNextElement env st).2.currentSlide := by
                rw [hcs, hcount]; omega
              have h1' : getCount (revealNextElement env st).2
                    (revealNextElement env st).2.currentSlide
                  ≤ ((env.elements (revealNextElement env st).2.currentSlide).length
                      : Int) := by
                rw [hcs, hcount]; omega
              have hres := ih (revealNextElement env st).2 h0' h1'
              rw [hcs] at hres
              exact hres
        | hideLast =>
            rw [applyRevealOps_hide]
            by_cases hcr : env.clickReveal st.currentSlide = false
            · rw [hideLastRevealedElement_notCR env st hcr]
              exact ih st h0 h1
            · by_cases hz : getCount st st.currentSlide ≤ 0
              · rw [hideLastRevealedElement_zero env st hz]
                exact ih st h0 h1
              · have hcr' : env.clickReveal st.currentSlide = true := by
                  revert hcr
                  cases env.clickReveal st.currentSlide <;> simp
                obtain ⟨-, hcs, hcount⟩ :=
                  hideLastRevealedElement_step env st hcr' (not_le.mp hz)
                have h0' : 0 ≤ getCount (hideLastRevealedElement env st).2
                    (hideLastRevealedElement env st).2.currentSlide := by
                  rw [hcs, hcount]; omega
                have h1' : getCount (hideLastRevealedElement env st).2
                      (hideLastRevealedElement env st).2.currentSlide
                    ≤ ((env.elements
                        (hideLastRevealedElement env st).2.currentSlide).length
                        : Int) := by
                  rw [hcs, hcount]; omega
                have hres := ih (hideLastRevealedElement env st).2 h0' h1'
                rw [hcs] at hres
                exact hres
  · intro G env st h
    exact revealNextElement_full env st h
  · intro G env st h
    exact hideLastRevealedElement_zero env st h

/-- Environment of the C3 witness: slide 2 is click-reveal with three
elements of ordinals 0, 1, 2. -/
def envSlide2W : Env :=
  { clickReveal := fun s => s == 2
    elements := fun s => if s == 2 then [0, 1, 2] else [] }

/-- Witness for C3 on a concrete click-reveal slide with three elements,
with the op sequence next, next, hideLast. -/
theorem c3_counter_bounds_witness :
    (applyRevealOps envSlide2W [RevealOp.next, RevealOp.next, RevealOp.hideLast]
        (goToSlide envSlide2W (presInit envSlide2W : PresState Unit) 2)).currentSlide
      = (goToSlide envSlide2W (presInit envSlide2W : PresState Unit) 2).currentSlide ∧
    0 ≤ getCount
        (applyRevealOps envSlide2W [RevealOp.next, RevealOp.next, RevealOp.hideLast]
          (goToSlide envSlide2W (presInit envSlide2W : PresState Unit) 2))
        (goToSlide envSlide2W (presInit envSlide2W : PresState Unit) 2).currentSlide ∧
    getCount
        (applyRevealOps envSlide2W [RevealOp.next, RevealOp.next, RevealOp.hideLast]
          (goToSlide envSlide2W (presInit envSlide2W : PresState Unit) 2))
        (goToSlide envSlide2W (presInit envSlide2W : PresState Unit) 2).currentSlide
      ≤ ((envSlide2W.elements
          (goToSlide envSlide2W (presInit envSlide2W : PresState Unit) 2).currentSlide).length
          : Int) :=
  c3_counter_bounds.1 Unit envSlide2W [RevealOp.next, RevealOp.next, RevealOp.hideLast]
    (goToSlide envSlide2W (presInit envSlide2W) 2) (by decide) (by decide)

/-- If no element carries ordinal `d`, the `forEach` search finds nothing. -/
lemma lastMatch_eq_none (elements : List Int) (d : Int)
    (h : ∀ x ∈ elements, x ≠ d) : lastMatch elements d = none := by
  unfold lastMatch
  have key : ∀ (l : List Nat) (acc : Option Nat),
      (∀ i ∈ l, ¬(elements[i]? = some d)) →
      l.foldl (fun acc i => if elements[i]? = some d then some i else acc) acc = acc := by
    intro l
    induction l with
    | nil => intro acc _; rfl
    | cons i is ih =>
        intro acc hall
        rw [List.foldl_cons, if_neg (hall i (by simp))]
        exact ih acc (fun j hj => hall j (by simp [hj]))
  apply key
  intro i _ hcon
  exact h d (List.getElem?_mem hcon) rfl

/-- C10: When the counter is strictly below the element count but no
element carries an ordinal equal to the counter, `revealNextElement` still
succeeds and increments the counter while leaving every `visible` class
unchanged — the gap consumes the forward input without revealing anything. -/
theorem c10_ordinal_gap :
    ∀ (G : Type) (env : Env) (st : PresState G),
      getCount st st.currentSlide < ((env.elements st.currentSlide).length : Int) →
      (∀ x ∈ env.elements st.currentSlide, x ≠ getCount st st.currentSlide) →
      (revealNextElement env st).1 = true ∧
      getCount (revealNextElement env st).2 st.currentSlide
        = getCount st st.currentSlide + 1 ∧
      (revealNextElement env st).2.visible = st.visible := by
  intro G env st hlt hgap
  have hnone := lastMatch_eq_none _ _ hgap
  rw [revealNextElement, if_neg (not_le.mpr hlt)]
  refine ⟨rfl, by simp [getCount], ?_⟩
  funext s j
  simp [hnone]

/-- The environment of the C10 witness: slide 1 is click-reveal and its two
elements carry ordinals 1 and 2 — there is a gap at ordinal 0. -/
def envGap : Env :=
  { clickReveal := fun s => s == 1
    elements := fun s => if s == 1 then [1, 2] else [] }

/-- Witness for C10: on `envGap`'s slide 1 at counter 0, the forward step
succeeds, moves the counter to 1, and reveals nothing. -/
theorem c10_ordinal_gap_witness :
    (revealNextElement envGap (presInit envGap : PresState Unit)).1 = true ∧
    getCount (revealNextElement envGap (presInit envGap : PresState Unit)).2
        (presInit envGap : PresState Unit).currentSlide
      = getCount (presInit envGap : PresState Unit)
          (presInit envGap : PresState Unit).currentSlide + 1 ∧
    (revealNextElement envGap (presInit envGap : PresState Unit)).2.visible
      = (presInit envGap : PresState Unit).visible :=
  c10_ordinal_gap Unit envGap (presInit envGap) (by decide) (by decide)

/-!  ## Navigation lemmas  -/

lemma leaveReset10_currentSlide {G : Type} (st : PresState G) (n : Int) :
    (leaveReset10 st n).currentSlide = st.currentSlide := by
  unfold leaveReset10 resetInteractiveSlide10
  split <;> rfl

lemma leaveReset11_currentSlide {G : Type} (st : PresState G) (n : Int) :
    (leaveReset11 st n).currentSlide = st.currentSlide := by
  unfold leaveReset11 resetInteractiveSlide11
  split <;> rfl

lemma leaveReset10_revealCount {G : Type} (st : PresState G) (n : Int) :
    (leaveReset10 st n).revealCount = st.revealCount := by
  unfold leaveReset10 resetInteractiveSlide10
  split <;> rfl

lemma leaveReset11_revealCount {G : Type} (st : PresState G) (n : Int) :
    (leaveReset11 st n).revealCount = st.revealCount := by
  unfold leaveReset11 resetInteractiveSlide11
  split <;> rfl

lemma animateSlide_currentSlide {G : Type} (env : Env) (st : PresState G) (n : Int) :
    (animateSlide env st n).currentSlide = st.currentSlide := by
  unfold animateSlide
  split
  · split <;> rfl
  · rfl

lemma animateSlide_w10 {G : Type} (env : Env) (st : PresState G) (n : Int) :
    (animateSlide env st n).w10 = st.w10 := by
  unfold animateSlide
  split
  · split <;> rfl
  · rfl

lemma animateSlide_w11 {G : Type} (env : Env) (st : PresState G) (n : Int) :
    (animateSlide env st n).w11 = st.w11 := by
  unfold animateSlide
  split
  · split <;> rfl
  · rfl

lemma originalGoToSlide_out {G : Type} (env : Env) (st : PresState G) (n : Int)
    (h : n < 1 ∨ n > totalSlides) : originalGoToSlide env st n = st := by
  rw [originalGoToSlide, if_pos h]

lemma originalGoToSlide_in_currentSlide {G : Type} (env : Env) (st : PresState G)
    (n : Int) (h : ¬(n < 1 ∨ n > totalSlides)) :
    (originalGoToSlide env st n).currentSlide = n := by
  rw [originalGoToSlide, if_neg h, animateSlide_currentSlide]

/-- The slide reached by the `goToSlide` wrapper. -/
lemma goToSlide_currentSlide {G : Type} (env : Env) (st : PresState G) (n : Int) :
    (goToSlide env st n).currentSlide
      = if n < 1 ∨ n > totalSlides then st.currentSlide else n := by
  unfold goToSlide
  by_cases h : n < 1 ∨ n > totalSlides
  · rw [if_pos h, originalGoToSlide_out env _ n h, leaveReset11_currentSlide,
        leaveReset10_currentSlide]
  · rw [if_neg h, originalGoToSlide_in_currentSlide env _ n h]

/-- C4: A forward input (forward keys or swipe-left) on an incomplete
click-reveal slide performs exactly one reveal step — it equals
`revealNextElement`, keeps the slide, and increments the counter; once the
counter has reached the element count, the same input advances the slide by
one (within the valid range, per the `goToSlide` contract). -/
theorem c4_forward_precedence :
    ∀ (G : Type) (env : Env) (st : PresState G),
      (env.clickReveal st.currentSlide = true →
        getCount st st.currentSlide < ((env.elements st.currentSlide).length : Int) →
        handleKeydown env st Key.arrowRight = (revealNextElement env st).2 ∧
        handleKeydown env st Key.arrowDown = (revealNextElement env st).2 ∧
        handleKeydown env st Key.space = (revealNextElement env st).2 ∧
        handleKeydown env st Key.pageDown = (revealNextElement env st).2 ∧
        (∀ a b : Int, 50 < a - b → handleSwipe env st a b = (revealNextElement env st).2) ∧
        (forwardNav env st).currentSlide = st.currentSlide ∧
        getCount (forwardNav env st) st.currentSlide = getCount st st.currentSlide + 1) ∧
      (env.clickReveal st.currentSlide = true →
        ((env.elements st.currentSlide).length : Int) ≤ getCount st st.currentSlide →
        1 ≤ st.currentSlide → st.currentSlide < totalSlides →
        (handleKeydown env st Key.arrowRight).currentSlide = st.currentSlide + 1 ∧
        (∀ a b : Int, 50 < a - b →
          (handleSwipe env st a b).currentSlide = st.currentSlide + 1)) := by
  intro G env st
  constructor
  · intro hcr hlt
    have hB : allElementsRevealed env st = false := by
      simp only [allElementsRevealed, decide_eq_false_iff_not]
      omega
    have hfwd : forwardNav env st = (revealNextElement env st).2 := by
      rw [forwardNav, if_pos]
      simp [isCurrentSlideClickReveal, hcr, hB]
    obtain ⟨-, hcs, hcount⟩ := revealNextElement_step env st hlt
    refine ⟨hfwd, hfwd, hfwd, hfwd, ?_, ?_, ?_⟩
    · intro a b hab
      rw [handleSwipe, if_pos, if_pos (by omega : (0 : Int) < a - b)]
      · exact hfwd
      · rw [abs_of_pos (by omega : (0 : Int) < a - b)]
        exact hab
    · rw [hfwd]
      exact hcs
    · rw [hfwd]
      exact hcount
  · intro hcr hge h1 h2
    have hB : allElementsRevealed env st = true := by
      simp only [allElementsRevealed, decide_eq_true_eq]
      omega
    have hfwd : forwardNav env st = nextSlide env st := by
      rw [forwardNav, if_neg]
      simp [isCurrentSlideClickReveal, hcr, hB]
    have hnext : (nextSlide env st).currentSlide = st.currentSlide + 1 := by
      rw [nextSlide, goToSlide_currentSlide, if_neg]
      simp only [totalSlides] at *
      omega
    constructor
    · show (forwardNav env st).currentSlide = st.currentSlide + 1
      rw [hfwd]
      exact hnext
    · intro a b hab
      rw [handleSwipe, if_pos, if_pos (by omega : (0 : Int) < a - b)]
      · rw [hfwd]
        exact hnext
      · rw [abs_of_pos (by omega : (0 : Int) < a - b)]
        exact hab

/-- The environment of several witnesses: slide 2 is click-reveal with
three elements carrying ordinals 0, 1, 2. -/
def envSlide2 : Env :=
  { clickReveal := fun s => s == 2
    elements := fun s => if s == 2 then [0, 1, 2] else [] }

/-- Witness for C4, running the spec's scenario on `envSlide2`: three
forward inputs reveal ordinals 0, 1, 2 in order without changing the slide,
and a fourth forward input advances to slide 3. -/
theorem c4_forward_precedence_witness :
    ((forwardNav envSlide2 (goToSlide envSlide2 (presInit envSlide2 : PresState Unit) 2)).currentSlide
        = (goToSlide envSlide2 (presInit envSlide2 : PresState Unit) 2).currentSlide ∧
      getCount
          (forwardNav envSlide2 (goToSlide envSlide2 (presInit envSlide2 : PresState Unit) 2))
          (goToSlide envSlide2 (presInit envSlide2 : PresState Unit) 2).currentSlide
        = getCount (goToSlide envSlide2 (presInit envSlide2 : PresState Unit) 2)
            (goToSlide envSlide2 (presInit envSlide2 : PresState Unit) 2).currentSlide + 1) ∧
    (forwardNav envSlide2 (goToSlide envSlide2 (presInit envSlide2 : PresState Unit) 2)).visible 2 0
      = true ∧
    (forwardNav envSlide2 (forwardNav envSlide2
        (goToSlide envSlide2 (presInit envSlide2 : PresState Unit) 2))).visible 2 1 = true ∧
    (forwardNav envSlide2 (forwardNav envSlide2 (forwardNav envSlide2
        (goToSlide envSlide2 (presInit envSlide2 : PresState Unit) 2)))).visible 2 2 = true ∧
    (handleKeydown envSlide2
        (forwardNav envSlide2 (forwardNav envSlide2 (forwardNav envSlide2
          (goToSlide envSlide2 (presInit envSlide2 : PresState Unit) 2))))
        Key.arrowRight).currentSlide
      = (forwardNav envSlide2 (forwardNav envSlide2 (forwardNav envSlide2
          (goToSlide envSlide2 (presInit envSlide2 : PresState Unit) 2)))).currentSlide + 1 := by
  have h1 := (c4_forward_precedence Unit envSlide2
    (goToSlide envSlide2 (presInit envSlide2) 2)).1 (by decide) (by decide)
  have h2 := (c4_forward_precedence Unit envSlide2
    (forwardNav envSlide2 (forwardNav envSlide2 (forwardNav envSlide2
      (goToSlide envSlide2 (presInit envSlide2) 2))))).2
    (by decide) (by decide) (by decide) (by decide)
  exact ⟨⟨h1.2.2.2.2.2.1, h1.2.2.2.2.2.2⟩, by decide, by decide, by decide, h2.1⟩

/-- Environment for witnesses on a page with no click-reveal slides. -/
def envPlain : Env :=
  { clickReveal := fun _ => false
    elements := fun _ => [] }

lemma leaveReset10_id {G : Type} (st : PresState G) (n : Int)
    (h : st.currentSlide ≠ 10) : leaveReset10 st n = st := by
  rw [leaveReset10, if_neg (fun hc => h hc.1)]

lemma leaveReset11_id {G : Type} (st : PresState G) (n : Int)
    (h : st.currentSlide ≠ 11) : leaveReset11 st n = st := by
  rw [leaveReset11, if_neg (fun hc => h hc.1)]

lemma leaveReset10_w11 {G : Type} (st : PresState G) (n : Int) :
    (leaveReset10 st n).w11 = st.w11 := by
  unfold leaveReset10 resetInteractiveSlide10
  split <;> rfl

lemma leaveReset11_w10 {G : Type} (st : PresState G) (n : Int) :
    (leaveReset11 st n).w10 = st.w10 := by
  unfold leaveReset11 resetInteractiveSlide11
  split <;> rfl

lemma originalGoToSlide_w10 {G : Type} (env : Env) (st : PresState G) (n : Int) :
    (originalGoToSlide env st n).w10 = st.w10 := by
  unfold originalGoToSlide
  split
  · rfl
  · rw [animateSlide_w10]

lemma originalGoToSlide_w11 {G : Type} (env : Env) (st : PresState G) (n : Int) :
    (originalGoToSlide env st n).w11 = st.w11 := by
  unfold originalGoToSlide
  split
  · rfl
  · rw [animateSlide_w11]

/-- The slide-10 widget state after the `goToSlide` wrapper: reset exactly
when leaving slide 10. -/
lemma goToSlide_w10 {G : Type} (env : Env) (st : PresState G) (n : Int) :
    (goToSlide env st n).w10
      = if st.currentSlide = 10 ∧ n ≠ 10 then widgetInit else st.w10 := by
  unfold goToSlide
  rw [originalGoToSlide_w10, leaveReset11_w10]
  unfold leaveReset10 resetInteractiveSlide10
  split <;> rfl

/-- The slide-11 widget state after the `goToSlide` wrapper. -/
lemma goToSlide_w11 {G : Type} (env : Env) (st : PresState G) (n : Int) :
    (goToSlide env st n).w11
      = if (leaveReset10 st n).currentSlide = 11 ∧ n ≠ 11 then widgetInit
        else st.w11 := by
  unfold goToSlide
  rw [originalGoToSlide_w11]
  unfold leaveReset11 resetInteractiveSlide11
  split
  · rfl
  · rw [leaveReset10_w11]

/-- C5 counterexample: a reachable state on slide 10 with `fysikk1`
selected; the out-of-range call `goToSlide 0` leaves the current slide
unchanged but is not silently ignored — it resets the widget flag, an
observable state change. -/
theorem c5_out_of_range_counterexample :
    (fagCellClick10 (goToSlide envPlain (presInit envPlain : PresState Unit) 10)
        Fag10.fysikk1 () ()).currentSlide = 10 ∧
    (fagCellClick10 (goToSlide envPlain (presInit envPlain : PresState Unit) 10)
        Fag10.fysikk1 () ()).w10.flags Fag10.fysikk1 = true ∧
    (goToSlide envPlain
        (fagCellClick10 (goToSlide envPlain (presInit envPlain : PresState Unit) 10)
          Fag10.fysikk1 () ()) 0).currentSlide = 10 ∧
    (goToSlide envPlain
        (fagCellClick10 (goToSlide envPlain (presInit envPlain : PresState Unit) 10)
          Fag10.fysikk1 () ()) 0).w10.flags Fag10.fysikk1 = false := by
  decide

/-- C5 (amended): For every `n` outside [1, totalSlides] and every state,
`goToSlide n` performs no navigation — the current slide is unchanged — and
on any slide other than 10 and 11 it is a complete no-op; on slides 10/11
the wrapper still resets that widget's state before the range check. -/
theorem c5_out_of_range_ignored :
    ∀ (G : Type) (env : Env) (st : PresState G) (n : Int),
      n < 1 ∨ n > totalSlides →
      (goToSlide env st n).currentSlide = st.currentSlide ∧
      (st.currentSlide ≠ 10 → st.currentSlide ≠ 11 → goToSlide env st n = st) := by
  intro G env st n h
  constructor
  · rw [goToSlide_currentSlide, if_pos h]
  · intro h10 h11
    unfold goToSlide
    rw [leaveReset10_id st n h10, leaveReset11_id st n h11,
        originalGoToSlide_out env st n h]

/-- Witness for C5 (amended) at `n = 0` from the initial state. -/
theorem c5_out_of_range_ignored_witness :
    (goToSlide envPlain (presInit envPlain : PresState Unit) 0).currentSlide
      = (presInit envPlain : PresState Unit).currentSlide ∧
    ((presInit envPlain : PresState Unit).currentSlide ≠ 10 →
      (presInit envPlain : PresState Unit).currentSlide ≠ 11 →
      goToSlide envPlain (presInit envPlain : PresState Unit) 0 = presInit envPlain) :=
  c5_out_of_range_ignored Unit envPlain (presInit envPlain) 0 (Or.inl (by decide))

/-- C7: Navigating from a widget's slide (10 or 11) to a different slide
resets that widget to the all-false initial state (flags, `selected`
marks, arrows and results), and the widget is still in that state after
navigating back — the state on return equals the first-visit state. -/
theorem c7_leave_resets_widget :
    ∀ (G : Type) (env : Env) (st : PresState G) (m : Int),
      (st.currentSlide = 10 → m ≠ 10 →
        (goToSlide env st m).w10 = widgetInit ∧
        (goToSlide env (goToSlide env st m) 10).w10 = widgetInit) ∧
      (st.currentSlide = 11 → m ≠ 11 →
        (goToSlide env st m).w11 = widgetInit ∧
        (goToSlide env (goToSlide env st m) 11).w11 = widgetInit) := by
  intro G env st m
  constructor
  · intro h10 hm
    have h1 : (goToSlide env st m).w10 = widgetInit := by
      rw [goToSlide_w10, if_pos ⟨h10, hm⟩]
    refine ⟨h1, ?_⟩
    rw [goToSlide_w10, if_neg (fun hc => hc.2 rfl), h1]
  · intro h11 hm
    have hcs : (leaveReset10 st m).currentSlide = st.currentSlide :=
      leaveReset10_currentSlide st m
    have h1 : (goToSlide env st m).w11 = widgetInit := by
      rw [goToSlide_w11, if_pos ⟨hcs.trans h11, hm⟩]
    refine ⟨h1, ?_⟩
    rw [goToSlide_w11, if_neg (fun hc => hc.2 rfl), h1]

/-- Witness for C7: with `fysikk1` selected on slide 10, navigating to
slide 3 and back to slide 10 yields the all-false widget state. -/
theorem c7_leave_resets_widget_witness :
    (goToSlide envPlain
        (fagCellClick10 (goToSlide envPlain (presInit envPlain : PresState Unit) 10)
          Fag10.fysikk1 () ()) 3).w10 = widgetInit ∧
    (goToSlide envPlain
        (goToSlide envPlain
          (fagCellClick10 (goToSlide envPlain (presInit envPlain : PresState Unit) 10)
            Fag10.fysikk1 () ()) 3) 10).w10 = widgetInit :=
  (c7_leave_resets_widget Unit envPlain
    (fagCellClick10 (goToSlide envPlain (presInit envPlain) 10) Fag10.fysikk1 () ())
    3).1 (by decide) (by decide)

/-!  ## Reveal-counter lifecycle  -/

lemma animateSlide_revealCount_ne {G : Type} (env : Env) (st : PresState G)
    (n s : Int) (hs : st.revealCount s ≠ none) :
    (animateSlide env st n).revealCount s = st.revealCount s := by
  unfold animateSlide
  split
  · split
    · rename_i hnone
      by_cases hsn : s = n
      · subst hsn
        exact absurd hnone hs
      · simp [hsn]
    · rfl
  · rfl

lemma animateSlide_revealCount_init {G : Type} (env : Env) (st : PresState G)
    (n : Int) (hcr : env.clickReveal n = true) (hnone : st.revealCount n = none) :
    (animateSlide env st n).revealCount n = some 0 := by
  unfold animateSlide
  rw [if_pos hcr, if_pos hnone]
  simp

/-- Navigation never changes an already-created reveal counter. -/
lemma goToSlide_revealCount_ne {G : Type} (env : Env) (st : PresState G)
    (m s : Int) (hs : st.revealCount s ≠ none) :
    (goToSlide env st m).revealCount s = st.revealCount s := by
  unfold goToSlide
  by_cases h : m < 1 ∨ m > totalSlides
  · rw [originalGoToSlide_out _ _ _ h, leaveReset11_revealCount, leaveReset10_revealCount]
  · rw [originalGoToSlide, if_neg h]
    have hrc :
        ({ leaveReset11 (leaveReset10 st m) m with currentSlide := m } :
          PresState G).revealCount = st.revealCount := by
      show (leaveReset11 (leaveReset10 st m) m).revealCount = st.revealCount
      rw [leaveReset11_revealCount, leaveReset10_revealCount]
    rw [animateSlide_revealCount_ne env _ m s (by rw [hrc]; exact hs), hrc]

/-- Entering a click-reveal slide whose counter is uninitialized creates it
at 0. -/
lemma goToSlide_revealCount_init {G : Type} (env : Env) (st : PresState G)
    (m : Int) (hnone : st.revealCount m = none) (hcr : env.clickReveal m = true)
    (hin : ¬(m < 1 ∨ m > totalSlides)) :
    (goToSlide env st m).revealCount m = some 0 := by
  unfold goToSlide
  rw [originalGoToSlide, if_neg hin]
  have hrc :
      ({ leaveReset11 (leaveReset10 st m) m with currentSlide := m } :
        PresState G).revealCount = st.revealCount := by
    show (leaveReset11 (leaveReset10 st m) m).revealCount = st.revealCount
    rw [leaveReset11_revealCount, leaveReset10_revealCount]
  exact animateSlide_revealCount_init env _ m hcr (by rw [hrc]; exact hnone)

/-- C9 counterexample: on `envSlide2`, reveal two elements of slide 2, then
navigate to slide 3 and back to slide 2.  The counter is not reset by
leaving: it stays at 2 after leaving and after returning (the claim
requires it to be reset to 0). -/
theorem c9_reset_counterexample :
    (forwardNav envSlide2 (forwardNav envSlide2
        (goToSlide envSlide2 (presInit envSlide2 : PresState Unit) 2))).revealCount 2
      = some 2 ∧
    (goToSlide envSlide2
        (forwardNav envSlide2 (forwardNav envSlide2
          (goToSlide envSlide2 (presInit envSlide2 : PresState Unit) 2))) 3).revealCount 2
      = some 2 ∧
    (goToSlide envSlide2
        (goToSlide envSlide2
          (forwardNav envSlide2 (forwardNav envSlide2
            (goToSlide envSlide2 (presInit envSlide2 : PresState Unit) 2))) 3)
        2).revealCount 2 = some 2 := by
  decide

/-- C9 (amended): The per-slide reveal counter is created lazily — set to 0
on the first navigation to a click-reveal slide whose counter is still
absent — and navigation never resets an existing counter: it persists
unchanged across leaving and returning to the slide. -/
theorem c9_lazy_counter_persists :
    ∀ (G : Type) (env : Env) (st : PresState G) (m s : Int),
      (st.revealCount s ≠ none →
        (goToSlide env st m).revealCount s = st.revealCount s) ∧
      (st.revealCount m = none → env.clickReveal m = true →
        ¬(m < 1 ∨ m > totalSlides) →
        (goToSlide env st m).revealCount m = some 0) := by
  intro G env st m s
  exact ⟨goToSlide_revealCount_ne env st m s,
         fun hnone hcr hin => goToSlide_revealCount_init env st m hnone hcr hin⟩

/-- Witness for C9 (amended): the counter of slide 2 survives navigating
away, and a first visit to slide 2 creates it at 0. -/
theorem c9_lazy_counter_persists_witness :
    ((goToSlide envSlide2
        (forwardNav envSlide2 (forwardNav envSlide2
          (goToSlide envSlide2 (presInit envSlide2 : PresState Unit) 2))) 3).revealCount 2
      = (forwardNav envSlide2 (forwardNav envSlide2
          (goToSlide envSlide2 (presInit envSlide2 : PresState Unit) 2))).revealCount 2) ∧
    (goToSlide envSlide2 (presInit envSlide2 : PresState Unit) 2).revealCount 2
      = some 0 :=
  ⟨(c9_lazy_counter_persists Unit envSlide2
      (forwardNav envSlide2 (forwardNav envSlide2
        (goToSlide envSlide2 (presInit envSlide2) 2))) 3 2).1 (by decide),
   (c9_lazy_counter_persists Unit envSlide2 (presInit envSlide2) 2 2).2
     (by decide) (by decide) (by decide)⟩

/-!  ## Escape-key dispatch  -/

/-- Field accounting for one full Escape dispatch: all bubbles and modals
end closed, and the reveal counters and current slide are exactly those
left by the first listener (`handleKeydown`). -/
lemma escapeDispatch_fields {G : Type} (env : Env) (st : PresState G) :
    (escapeDispatch env st).bubbleOpen = false ∧
    (escapeDispatch env st).imageModalOpen = false ∧
    (escapeDispatch env st).qrModalOpen = false ∧
    (escapeDispatch env st).revealCount = (handleKeydown env st Key.escape).revealCount ∧
    (escapeDispatch env st).currentSlide = (handleKeydown env st Key.escape).currentSlide := by
  simp only [escapeDispatch]
  by_cases h3 : (closeAllSpeechBubbles (handleKeydown env st Key.escape)).imageModalOpen
      = true
  · rw [if_pos h3]
    by_cases h4 : (closeImageModal
        (closeAllSpeechBubbles (handleKeydown env st Key.escape))).qrModalOpen = true
    · rw [if_pos h4]
      simp [closeQrModal, closeImageModal, closeAllSpeechBubbles]
    · rw [if_neg h4]
      have h4' : (closeImageModal
          (closeAllSpeechBubbles (handleKeydown env st Key.escape))).qrModalOpen
          = false := by
        revert h4
        cases (closeImageModal
          (closeAllSpeechBubbles (handleKeydown env st Key.escape))).qrModalOpen <;> simp
      exact ⟨rfl, rfl, h4', rfl, rfl⟩
  · rw [if_neg h3]
    have h3' : (closeAllSpeechBubbles (handleKeydown env st Key.escape)).imageModalOpen
        = false := by
      revert h3
      cases (closeAllSpeechBubbles (handleKeydown env st Key.escape)).imageModalOpen <;>
        simp
    by_cases h4 : (closeAllSpeechBubbles (handleKeydown env st Key.escape)).qrModalOpen
        = true
    · rw [if_pos h4]
      exact ⟨rfl, h3', rfl, rfl, rfl⟩
    · rw [if_neg h4]
      have h4' : (closeAllSpeechBubbles (handleKeydown env st Key.escape)).qrModalOpen
          = false := by
        revert h4
        cases (closeAllSpeechBubbles (handleKeydown env st Key.escape)).qrModalOpen <;>
          simp
      exact ⟨rfl, h3', h4', rfl, rfl⟩

/-- The environment of the C8 scenario: slide 1 is click-reveal with a
single element of ordinal 0. -/
def envEsc : Env :=
  { clickReveal := fun s => s == 1
    elements := fun s => if s == 1 then [0] else [] }

/-- C8 counterexample: with the image modal open on a click-reveal slide
whose counter is 1, one Escape keypress both closes the modal and reverses
the reveal step (counter back to 0) — the open modal does not suppress the
reveal reversal, which fires first in listener order. -/
theorem c8_escape_counterexample :
    (openImageModal (forwardNav envEsc (presInit envEsc : PresState Unit))).imageModalOpen
      = true ∧
    getCount (openImageModal (forwardNav envEsc (presInit envEsc : PresState Unit)))
        (openImageModal (forwardNav envEsc (presInit envEsc : PresState Unit))).currentSlide
      = 1 ∧
    (escapeDispatch envEsc
        (openImageModal (forwardNav envEsc (presInit envEsc : PresState Unit)))).imageModalOpen
      = false ∧
    getCount
        (escapeDispatch envEsc
          (openImageModal (forwardNav envEsc (presInit envEsc : PresState Unit))))
        (openImageModal (forwardNav envEsc (presInit envEsc : PresState Unit))).currentSlide
      = 0 := by
  decide

/-- C8 (amended): One Escape keypress runs all four keydown listeners in
registration order — the `handleKeydown` reveal reversal first, then the
bubble and modal closers.  Every bubble and modal ends closed, and on a
click-reveal slide with a positive counter the reveal step is reversed
regardless of any open modal or bubble; on other slides the counters are
untouched. -/
theorem c8_escape_order :
    ∀ (G : Type) (env : Env) (st : PresState G),
      (escapeDispatch env st).bubbleOpen = false ∧
      (escapeDispatch env st).imageModalOpen = false ∧
      (escapeDispatch env st).qrModalOpen = false ∧
      (env.clickReveal st.currentSlide = true → 0 < getCount st st.currentSlide →
        getCount (escapeDispatch env st) st.currentSlide
          = getCount st st.currentSlide - 1) ∧
      (env.clickReveal st.currentSlide = false →
        (escapeDispatch env st).revealCount = st.revealCount) := by
  intro G env st
  obtain ⟨hb, hi, hq, hrc, -⟩ := escapeDispatch_fields env st
  have hk : handleKeydown env st Key.escape
      = if isCurrentSlideClickReveal env st then (hideLastRevealedElement env st).2
        else st := rfl
  refine ⟨hb, hi, hq, ?_, ?_⟩
  · intro hcr hpos
    obtain ⟨-, -, hcount⟩ := hideLastRevealedElement_step env st hcr hpos
    have hkd : handleKeydown env st Key.escape = (hideLastRevealedElement env st).2 := by
      rw [hk, if_pos]
      simp [isCurrentSlideClickReveal, hcr]
    rw [getCount, hrc, hkd]
    exact hcount
  · intro hcr
    have hkd : handleKeydown env st Key.escape = st := by
      rw [hk, if_neg]
      simp [isCurrentSlideClickReveal, hcr]
    rw [hrc, hkd]

/-- Witness for C8 (amended) on the concrete modal-open scenario. -/
theorem c8_escape_order_witness :
    (escapeDispatch envEsc
        (openImageModal (forwardNav envEsc (presInit envEsc : PresState Unit)))).bubbleOpen
      = false ∧
    (escapeDispatch envEsc
        (openImageModal (forwardNav envEsc (presInit envEsc : PresState Unit)))).qrModalOpen
      = false ∧
    getCount
        (escapeDispatch envEsc
          (openImageModal (forwardNav envEsc (presInit envEsc : PresState Unit))))
        (openImageModal (forwardNav envEsc (presInit envEsc : PresState Unit))).currentSlide
      = getCount (openImageModal (forwardNav envEsc (presInit envEsc : PresState Unit)))
          (openImageModal (forwardNav envEsc (presInit envEsc : PresState Unit))).currentSlide
        - 1 := by
  have h := c8_escape_order Unit envEsc
    (openImageModal (forwardNav envEsc (presInit envEsc)))
  exact ⟨h.1, h.2.2.1, h.2.2.2.1 (by decide) (by decide)⟩

end Fagvalg
